import Mathlib

/-!
Shallow embedding of `src/benchflow_interface.py` (class `SimpleQABench`),
the single source file of the repository, together with proofs about its
behaviour.

Modelling conventions:
* Python exceptions are modelled with `Except String`: an `Except.error m`
  value stands for a raised exception whose `str(e)` is `m`.
* The filesystem at call time is a snapshot `FS` providing the outcomes of
  the primitive operations the code performs: `os.listdir`, `open` followed
  by `json.load`, `os.path.exists`, and `open` followed by `read`.
* Parsed JSON documents are values of the inductive type `JVal`.
* The exact text of the messages carried by Python built-in exceptions
  (`KeyError`, `TypeError`, `OSError`, `json.JSONDecodeError`) is
  environment-specific; the model keeps them as opaque strings supplied by
  the snapshot where the source gets them from the environment, and uses
  descriptive placeholder text for the `KeyError` and `TypeError` messages
  it produces itself. Python renders `str(KeyError(k))` with quote marks
  around `k`; the model drops the quote marks. No claim depends on the
  exact text of these messages, only on how the code wraps them.
-/

/-- A JSON value as produced by Python `json.load`. -/
inductive JVal where
  | jnull : JVal
  | jbool : Bool → JVal
  | jnum : Rat → JVal
  | jstr : String → JVal
  | jarr : List JVal → JVal
  | jobj : List (String × JVal) → JVal

/-- Lookup in a JSON object. `json.load` builds a Python dict, in which a
later duplicate key overwrites an earlier one, so the lookup is last-wins. -/
def jlookup : List (String × JVal) → String → Option JVal
  | [], _ => none
  | (k, v) :: rest, key =>
    match jlookup rest key with
    | some w => some w
    | none => if k = key then some v else none

/-- Python subscription `v[key]` with a string key: succeeds on a dict that
has the key, raises `KeyError` on a dict without it, raises `TypeError` on
any non-dict value. -/
def getItem (v : JVal) (key : String) : Except String JVal :=
  match v with
  | JVal.jobj fields =>
    match jlookup fields key with
    | some x => Except.ok x
    | none => Except.error ("KeyError: " ++ key)
  | _ => Except.error ("TypeError: value is not subscriptable with key " ++ key)

/-- Python slicing `v[:10]`: the first ten elements of a list (all of them
when there are fewer), the first ten characters of a string, and a
`TypeError` on every other value. -/
def pySlice10 (v : JVal) : Except String JVal :=
  match v with
  | JVal.jarr xs => Except.ok (JVal.jarr (List.take 10 xs))
  | JVal.jstr s => Except.ok (JVal.jstr (String.take s 10))
  | _ => Except.error "TypeError: value does not support slicing"

/-- Python `str.endswith`, used by the source to select result files. -/
def strEndsWith (s suffix : String) : Bool :=
  List.isSuffixOf suffix.data s.data

/-- Python `os.path.join` for the uses in the source: the directory never
ends in a separator and the joined name is relative, so the result is the
concatenation with a single separator. -/
def joinPath (a b : String) : String := a ++ "/" ++ b

/-- Python `str()` of the interpolated value in the f-string
`f"Evaluated X examples"`. Exact Python float formatting and compound-value
rendering are not modelled; no claim constrains this string. -/
def pyShow (v : JVal) : String :=
  match v with
  | JVal.jnull => "None"
  | JVal.jbool b => cond b "True" "False"
  | JVal.jnum q => if q.den = 1 then toString q.num else toString q.num ++ "/" ++ toString q.den
  | JVal.jstr s => s
  | JVal.jarr _ => "<list>"
  | JVal.jobj _ => "<dict>"

/-- The `BenchArgs` payload built by `get_args`: a required-key list and an
optional-key-to-default mapping. -/
structure BenchArgs where
  required_args : List String
  optional_args : List (String × String)
deriving DecidableEq

/-- The `BenchmarkResult` record returned by `get_result`. The `log` field
is a string-to-string dict in the source; `metrics` and `other` hold JSON
values. -/
structure BenchmarkResult where
  task_id : String
  is_resolved : Bool
  log : List (String × String)
  metrics : List (String × JVal)
  other : List (String × JVal)

/-- The task enumeration dict returned by `get_all_tasks`. -/
structure TaskList where
  task_ids : List String
  error_message : Option String
deriving DecidableEq

/-- A snapshot of the filesystem as seen through the primitive operations
the source performs. Each operation may raise (`Except.error` carries the
exception message). `pathExists` models `os.path.exists`, which returns a
Bool and does not raise. `openJson` models `open(p)` followed by
`json.load`; `readText` models `open(p)` followed by `read()`. -/
structure FS where
  listdir : String → Except String (List String)
  openJson : String → Except String JVal
  pathExists : String → Bool
  readText : String → Except String String

/-- The adapter state: the two directory paths the harness provisions on
the instance (`self.results_dir`, `self.log_files_dir`). -/
structure SimpleQABench where
  results_dir : String
  log_files_dir : String

namespace SimpleQABench

/-- `get_args` (lines 14-33): the fixed configuration descriptor. -/
def get_args (_self : SimpleQABench) (_task_id : String) : BenchArgs :=
  { required_args := ["OPENAI_API_KEY"],
    optional_args :=
      [("MODEL_NAME", "gpt-4o-mini"),
       ("TEMPERATURE", "0.5"),
       ("MAX_TOKENS", "2048"),
       ("LIMIT", "0"),
       ("BATCH_SIZE", "10"),
       ("GRADER_MODEL", "gpt-4o"),
       ("GRADER_TEMPERATURE", "0.5")] }

/-- `get_image_name` (lines 35-39). -/
def get_image_name (_self : SimpleQABench) : String :=
  "131268/benchflow-simpleqa:latest"

/-- `get_results_dir_in_container` (lines 41-45). -/
def get_results_dir_in_container (_self : SimpleQABench) : String :=
  "/app/results"

/-- `get_log_files_dir_in_container` (lines 47-51). -/
def get_log_files_dir_in_container (_self : SimpleQABench) : String :=
  "/app/logs"

/-- Lines 80-85 of `get_result`: read `simpleqa.log` from the logs
directory when it exists, otherwise use the empty string. The read runs
inside the `try` block, so a raised exception propagates out of this step. -/
def logStep (self : SimpleQABench) (fs : FS) : Except String String :=
  let log_file := joinPath self.log_files_dir "simpleqa.log"
  if fs.pathExists log_file then fs.readText log_file else Except.ok ""

/-- The body of the `try` block of `get_result` (lines 76-106): read and
parse the selected result file, read the log, look up the metric fields and
the detailed results, and build the resolved record. `Except.error m`
means the block raised an exception with message `m`, to be caught by the
`except` clause. The lookups appear in Python evaluation order. -/
def tryBody (self : SimpleQABench) (fs : FS) (task_id result_file : String) :
    Except String BenchmarkResult := do
  let results ← fs.openJson result_file
  let log_content ← logStep self fs
  let metrics ← getItem results "metrics"
  let accuracy ← getItem metrics "accuracy"
  let correct ← getItem metrics "correct"
  let incorrect ← getItem metrics "incorrect"
  let not_attempted ← getItem metrics "not_attempted"
  let total ← getItem metrics "total"
  let correct_given_attempted ← getItem metrics "correct_given_attempted"
  let f_score ← getItem metrics "f_score"
  let total_for_msg ← getItem metrics "total"
  let results_list ← getItem results "results"
  let detailed ← pySlice10 results_list
  Except.ok
    { task_id := task_id,
      is_resolved := true,
      log := [("content", log_content)],
      metrics :=
        [("accuracy", accuracy),
         ("correct", correct),
         ("incorrect", incorrect),
         ("not_attempted", not_attempted),
         ("total", total),
         ("correct_given_attempted", correct_given_attempted),
         ("f_score", f_score)],
      other :=
        [("success", JVal.jstr ("Evaluated " ++ pyShow total_for_msg ++ " examples")),
         ("detailed_results", detailed)] }

/-- `get_result` (lines 53-115). The outer `Except` models exceptions that
escape to the caller: the `os.listdir` call on line 62 runs outside the
`try` block, so its exception propagates; everything from line 76 on is
caught by the `except` clause on line 108. -/
def get_result (self : SimpleQABench) (fs : FS) (task_id : String) :
    Except String BenchmarkResult :=
  match fs.listdir self.results_dir with
  | Except.error e => Except.error e
  | Except.ok entries =>
    match entries.filter (fun f => strEndsWith f "_result.json") with
    | [] =>
      Except.ok
        { task_id := task_id,
          is_resolved := false,
          log := [("message", "")],
          metrics := [("accuracy", JVal.jnum 0)],
          other := [("error", JVal.jstr "No results found")] }
    | f0 :: _ =>
      match tryBody self fs task_id (joinPath self.results_dir f0) with
      | Except.ok r => Except.ok r
      | Except.error e =>
        Except.ok
          { task_id := task_id,
            is_resolved := false,
            log := [("message", "")],
            metrics := [("accuracy", JVal.jnum 0)],
            other := [("error", JVal.jstr ("Error parsing results: " ++ e))] }

/-- `get_all_tasks` (lines 117-129). -/
def get_all_tasks (_self : SimpleQABench) (_split : String) : TaskList :=
  { task_ids := ["default"], error_message := none }

/-- Two consecutive `get_result` calls against the same filesystem
snapshot, for the idempotence claim. -/
def callTwice (self : SimpleQABench) (fs : FS) (task_id : String) :
    Except String BenchmarkResult × Except String BenchmarkResult :=
  (get_result self fs task_id, get_result self fs task_id)

end SimpleQABench

/-! ## Generic lemmas about `Except` binds -/

/-- Bind on a successful `Except` runs the continuation. -/
theorem except_bind_ok {ε α β : Type} (a : α) (f : α → Except ε β) :
    (Except.ok a >>= f : Except ε β) = f a := rfl

/-- Bind on a failed `Except` keeps the failure. -/
theorem except_bind_err {ε α β : Type} (e : ε) (f : α → Except ε β) :
    (Except.error e >>= f : Except ε β) = Except.error e := rfl

/-- A bind produces a success exactly when both stages do. -/
theorem except_bind_eq_ok {ε α β : Type} {x : Except ε α} {f : α → Except ε β} {b : β} :
    (x >>= f) = Except.ok b ↔ ∃ a, x = Except.ok a ∧ f a = Except.ok b := by
  cases x with
  | error e => simp [except_bind_err]
  | ok a => simp [except_bind_ok]

/-! ## Inversion of the try-block body -/

/-- If the try block of `get_result` completes without raising, then every
step in it succeeded, and the returned record is the resolved record built
from the step results. -/
theorem tryBody_ok_elim {self : SimpleQABench} {fs : FS} {task_id result_file : String}
    {r : BenchmarkResult}
    (h : SimpleQABench.tryBody self fs task_id result_file = Except.ok r) :
    ∃ j lc m acc c inc na tot cga fsc tot2 rl dr,
      fs.openJson result_file = Except.ok j ∧
      SimpleQABench.logStep self fs = Except.ok lc ∧
      getItem j "metrics" = Except.ok m ∧
      getItem m "accuracy" = Except.ok acc ∧
      getItem m "correct" = Except.ok c ∧
      getItem m "incorrect" = Except.ok inc ∧
      getItem m "not_attempted" = Except.ok na ∧
      getItem m "total" = Except.ok tot ∧
      getItem m "correct_given_attempted" = Except.ok cga ∧
      getItem m "f_score" = Except.ok fsc ∧
      getItem m "total" = Except.ok tot2 ∧
      getItem j "results" = Except.ok rl ∧
      pySlice10 rl = Except.ok dr ∧
      r = { task_id := task_id,
            is_resolved := true,
            log := [("content", lc)],
            metrics :=
              [("accuracy", acc), ("correct", c), ("incorrect", inc),
               ("not_attempted", na), ("total", tot),
               ("correct_given_attempted", cga), ("f_score", fsc)],
            other :=
              [("success", JVal.jstr ("Evaluated " ++ pyShow tot2 ++ " examples")),
               ("detailed_results", dr)] } := by
  unfold SimpleQABench.tryBody at h
  rw [except_bind_eq_ok] at h
  obtain ⟨j, hj, h⟩ := h
  rw [except_bind_eq_ok] at h
  obtain ⟨lc, hlc, h⟩ := h
  rw [except_bind_eq_ok] at h
  obtain ⟨m, hm, h⟩ := h
  rw [except_bind_eq_ok] at h
  obtain ⟨acc, hacc, h⟩ := h
  rw [except_bind_eq_ok] at h
  obtain ⟨c, hc, h⟩ := h
  rw [except_bind_eq_ok] at h
  obtain ⟨inc, hinc, h⟩ := h
  rw [except_bind_eq_ok] at h
  obtain ⟨na, hna, h⟩ := h
  rw [except_bind_eq_ok] at h
  obtain ⟨tot, htot, h⟩ := h
  rw [except_bind_eq_ok] at h
  obtain ⟨cga, hcga, h⟩ := h
  rw [except_bind_eq_ok] at h
  obtain ⟨fsc, hfsc, h⟩ := h
  rw [except_bind_eq_ok] at h
  obtain ⟨tot2, htot2, h⟩ := h
  rw [except_bind_eq_ok] at h
  obtain ⟨rl, hrl, h⟩ := h
  rw [except_bind_eq_ok] at h
  obtain ⟨dr, hdr, h⟩ := h
  refine ⟨j, lc, m, acc, c, inc, na, tot, cga, fsc, tot2, rl, dr,
    hj, hlc, hm, hacc, hc, hinc, hna, htot, hcga, hfsc, htot2, hrl, hdr, ?_⟩
  cases h
  rfl

/-- Unfolding of `get_result` once the directory listing is known to have
succeeded. -/
theorem get_result_unfold_ok (self : SimpleQABench) (fs : FS) (task_id : String)
    (entries : List String) (h : fs.listdir self.results_dir = Except.ok entries) :
    SimpleQABench.get_result self fs task_id =
      (match entries.filter (fun f => strEndsWith f "_result.json") with
       | [] =>
         Except.ok
           { task_id := task_id,
             is_resolved := false,
             log := [("message", "")],
             metrics := [("accuracy", JVal.jnum 0)],
             other := [("error", JVal.jstr "No results found")] }
       | f0 :: _ =>
         match SimpleQABench.tryBody self fs task_id (joinPath self.results_dir f0) with
         | Except.ok r => Except.ok r
         | Except.error e =>
           Except.ok
             { task_id := task_id,
               is_resolved := false,
               log := [("message", "")],
               metrics := [("accuracy", JVal.jnum 0)],
               other := [("error", JVal.jstr ("Error parsing results: " ++ e))] }) := by
  unfold SimpleQABench.get_result
  rw [h]

/-- Whether a call outcome is an exception escaping to the caller. -/
def raisesToCaller (x : Except String BenchmarkResult) : Bool :=
  match x with
  | Except.error _ => true
  | Except.ok _ => false

/-! ## Concrete fixtures used by witnesses and counterexamples -/

/-- An adapter instance with arbitrary host-side directory paths. -/
def bX : SimpleQABench := { results_dir := "/res", log_files_dir := "/logs" }

/-- A well-formed result document: a metrics object with all seven
expected fields and a three-element results list. -/
def goodJson : JVal :=
  JVal.jobj
    [("metrics", JVal.jobj
       [("accuracy", JVal.jnum 1), ("correct", JVal.jnum 8),
        ("incorrect", JVal.jnum 1), ("not_attempted", JVal.jnum 1),
        ("total", JVal.jnum 10), ("correct_given_attempted", JVal.jnum 1),
        ("f_score", JVal.jnum 1)]),
     ("results", JVal.jarr [JVal.jnum 1, JVal.jnum 2, JVal.jnum 3])]

/-- Snapshot: one result file that parses into `goodJson`, and a readable
log file containing `hello`. -/
def fsGood : FS :=
  { listdir := fun _ => Except.ok ["model_result.json"],
    openJson := fun _ => Except.ok goodJson,
    pathExists := fun _ => true,
    readText := fun _ => Except.ok "hello" }

/-- Snapshot: the results directory lists only a non-matching entry. -/
def fsNone : FS :=
  { listdir := fun _ => Except.ok ["readme.txt"],
    openJson := fun _ => Except.error "unused",
    pathExists := fun _ => false,
    readText := fun _ => Except.error "unused" }

/-- Snapshot: listing the results directory itself raises. -/
def fsUnlistable : FS :=
  { listdir := fun _ => Except.error "FileNotFoundError: /res",
    openJson := fun _ => Except.error "unused",
    pathExists := fun _ => false,
    readText := fun _ => Except.error "unused" }

/-- Snapshot: one result file that fails to parse, with message `boom`. -/
def fsBoom : FS :=
  { listdir := fun _ => Except.ok ["model_result.json"],
    openJson := fun _ => Except.error "boom",
    pathExists := fun _ => false,
    readText := fun _ => Except.error "unused" }

/-- Snapshot: a well-formed result file, but the existing log file raises
on read. -/
def fsLogBad : FS :=
  { listdir := fun _ => Except.ok ["model_result.json"],
    openJson := fun _ => Except.ok goodJson,
    pathExists := fun _ => true,
    readText := fun _ => Except.error "PermissionError: simpleqa.log" }

/-! ## Claims -/

/-- C1, counterexample: when listing the results directory itself raises
(the directory is absent or unlistable), `get_result` does not return a
flagged record — the exception escapes to the caller, because the
`os.listdir` call on line 62 is outside the `try` block. -/
theorem c1_counterexample :
    SimpleQABench.get_result bX fsUnlistable "default" =
      Except.error "FileNotFoundError: /res" ∧
    raisesToCaller (SimpleQABench.get_result bX fsUnlistable "default") = true :=
  ⟨rfl, rfl⟩

/-- C1, amended: once the `os.listdir` call has succeeded, `get_result`
never raises to its caller; every failure path from there on resolves to a
normally-returned record, flagged with `is_resolved = false` and the
failure metrics. -/
theorem c1_no_raise_after_listdir (self : SimpleQABench) (fs : FS)
    (task_id : String) (entries : List String)
    (h : fs.listdir self.results_dir = Except.ok entries) :
    ∃ r, SimpleQABench.get_result self fs task_id = Except.ok r ∧
      (r.is_resolved = true ∨
        (r.is_resolved = false ∧ r.metrics = [("accuracy", JVal.jnum 0)])) := by
  rw [get_result_unfold_ok self fs task_id entries h]
  cases hfil : entries.filter (fun f => strEndsWith f "_result.json") with
  | nil => exact ⟨_, rfl, Or.inr ⟨rfl, rfl⟩⟩
  | cons f0 rest =>
    dsimp only
    cases htb : SimpleQABench.tryBody self fs task_id (joinPath self.results_dir f0) with
    | error e => exact ⟨_, rfl, Or.inr ⟨rfl, rfl⟩⟩
    | ok r =>
      obtain ⟨j, lc, m, acc, c, inc, na, tot, cga, fsc, tot2, rl, dr,
        hj, hlc, hm, h1, h2, h3, h4, h5, h6, h7, h8, h9, h10, hr⟩ := tryBody_ok_elim htb
      exact ⟨r, rfl, Or.inl (by rw [hr])⟩

/-- C1, witness for the amended theorem at a concrete snapshot. -/
theorem c1_no_raise_after_listdir_witness :
    fsNone.listdir bX.results_dir = Except.ok ["readme.txt"] ∧
    ∃ r, SimpleQABench.get_result bX fsNone "default" = Except.ok r ∧
      (r.is_resolved = true ∨
        (r.is_resolved = false ∧ r.metrics = [("accuracy", JVal.jnum 0)])) :=
  ⟨rfl, c1_no_raise_after_listdir bX fsNone "default" ["readme.txt"] rfl⟩

/-- C5: when no directory entry ends in `_result.json`, `get_result`
returns exactly the unresolved no-results record. -/
theorem c5_no_results (self : SimpleQABench) (fs : FS) (task_id : String)
    (entries : List String)
    (h : fs.listdir self.results_dir = Except.ok entries)
    (hnone : ∀ f ∈ entries, strEndsWith f "_result.json" = false) :
    SimpleQABench.get_result self fs task_id =
      Except.ok
        { task_id := task_id,
          is_resolved := false,
          log := [("message", "")],
          metrics := [("accuracy", JVal.jnum 0)],
          other := [("error", JVal.jstr "No results found")] } := by
  have hfil : entries.filter (fun f => strEndsWith f "_result.json") = [] := by
    rw [List.filter_eq_nil_iff]
    intro f hf
    simp [hnone f hf]
  rw [get_result_unfold_ok self fs task_id entries h, hfil]

/-- C5, witness at a concrete snapshot with one non-matching entry. -/
theorem c5_no_results_witness :
    (∀ f ∈ ["readme.txt"], strEndsWith f "_result.json" = false) ∧
    SimpleQABench.get_result bX fsNone "default" =
      Except.ok
        { task_id := "default",
          is_resolved := false,
          log := [("message", "")],
          metrics := [("accuracy", JVal.jnum 0)],
          other := [("error", JVal.jstr "No results found")] } :=
  ⟨by decide, c5_no_results bX fsNone "default" ["readme.txt"] rfl (by decide)⟩

/-- C7: two `get_result` calls against the same adapter state and the same
filesystem snapshot produce identical outcomes — the code consults no
mutable state besides the snapshot, so the embedding is a pure function of
it. -/
theorem c7_idempotent (self : SimpleQABench) (fs : FS) (task_id : String) :
    (SimpleQABench.callTwice self fs task_id).1 =
      (SimpleQABench.callTwice self fs task_id).2 := rfl

/-- C8: `get_args` returns the same fixed configuration descriptor for
every task id, with required exactly `OPENAI_API_KEY`, the seven documented
optional defaults, and required and optional key sets disjoint. -/
theorem c8_get_args_fixed (self : SimpleQABench) (task_id : String) :
    SimpleQABench.get_args self task_id =
      { required_args := ["OPENAI_API_KEY"],
        optional_args :=
          [("MODEL_NAME", "gpt-4o-mini"),
           ("TEMPERATURE", "0.5"),
           ("MAX_TOKENS", "2048"),
           ("LIMIT", "0"),
           ("BATCH_SIZE", "10"),
           ("GRADER_MODEL", "gpt-4o"),
           ("GRADER_TEMPERATURE", "0.5")] } ∧
    List.Disjoint (SimpleQABench.get_args self task_id).required_args
      ((SimpleQABench.get_args self task_id).optional_args.map Prod.fst) := by
  refine ⟨rfl, ?_⟩
  intro a ha hb
  simp [SimpleQABench.get_args] at ha
  subst ha
  simp [SimpleQABench.get_args] at hb

/-- C9: `get_all_tasks` returns the single task `default` and a null error
message, for every split. -/
theorem c9_get_all_tasks_fixed (self : SimpleQABench) (split : String) :
    SimpleQABench.get_all_tasks self split =
      { task_ids := ["default"], error_message := none } := rfl

/-- Unfolding of `get_result` when the directory listing raises: the
exception escapes. -/
theorem get_result_unfold_err (self : SimpleQABench) (fs : FS) (task_id : String)
    (e : String) (h : fs.listdir self.results_dir = Except.error e) :
    SimpleQABench.get_result self fs task_id = Except.error e := by
  unfold SimpleQABench.get_result
  rw [h]

/-- `get_result` when a result file is selected and the try block
completes: the resolved record is returned unchanged. -/
theorem get_result_eq_tryOk (self : SimpleQABench) (fs : FS) (task_id : String)
    (entries : List String) (f0 : String) (rest : List String) (r : BenchmarkResult)
    (h : fs.listdir self.results_dir = Except.ok entries)
    (hfil : entries.filter (fun f => strEndsWith f "_result.json") = f0 :: rest)
    (htb : SimpleQABench.tryBody self fs task_id (joinPath self.results_dir f0) =
      Except.ok r) :
    SimpleQABench.get_result self fs task_id = Except.ok r := by
  rw [get_result_unfold_ok self fs task_id entries h, hfil]
  dsimp only
  rw [htb]

/-- `get_result` when a result file is selected and the try block raises
with message `e`: the except clause builds the flagged record, prefixing
the message. -/
theorem get_result_eq_tryErr (self : SimpleQABench) (fs : FS) (task_id : String)
    (entries : List String) (f0 : String) (rest : List String) (e : String)
    (h : fs.listdir self.results_dir = Except.ok entries)
    (hfil : entries.filter (fun f => strEndsWith f "_result.json") = f0 :: rest)
    (htb : SimpleQABench.tryBody self fs task_id (joinPath self.results_dir f0) =
      Except.error e) :
    SimpleQABench.get_result self fs task_id =
      Except.ok
        { task_id := task_id,
          is_resolved := false,
          log := [("message", "")],
          metrics := [("accuracy", JVal.jnum 0)],
          other := [("error", JVal.jstr ("Error parsing results: " ++ e))] } := by
  rw [get_result_unfold_ok self fs task_id entries h, hfil]
  dsimp only
  rw [htb]

/-- Inversion: a resolved record can only come out of the success path,
with every step of the try block succeeding. -/
theorem get_result_resolved_elim {self : SimpleQABench} {fs : FS} {task_id : String}
    {r : BenchmarkResult}
    (h : SimpleQABench.get_result self fs task_id = Except.ok r)
    (hres : r.is_resolved = true) :
    ∃ entries f0 rest j lc m acc c inc na tot cga fsc tot2 rl dr,
      fs.listdir self.results_dir = Except.ok entries ∧
      entries.filter (fun f => strEndsWith f "_result.json") = f0 :: rest ∧
      fs.openJson (joinPath self.results_dir f0) = Except.ok j ∧
      SimpleQABench.logStep self fs = Except.ok lc ∧
      getItem j "metrics" = Except.ok m ∧
      getItem m "accuracy" = Except.ok acc ∧
      getItem m "correct" = Except.ok c ∧
      getItem m "incorrect" = Except.ok inc ∧
      getItem m "not_attempted" = Except.ok na ∧
      getItem m "total" = Except.ok tot ∧
      getItem m "correct_given_attempted" = Except.ok cga ∧
      getItem m "f_score" = Except.ok fsc ∧
      getItem m "total" = Except.ok tot2 ∧
      getItem j "results" = Except.ok rl ∧
      pySlice10 rl = Except.ok dr ∧
      r = { task_id := task_id,
            is_resolved := true,
            log := [("content", lc)],
            metrics :=
              [("accuracy", acc), ("correct", c), ("incorrect", inc),
               ("not_attempted", na), ("total", tot),
               ("correct_given_attempted", cga), ("f_score", fsc)],
            other :=
              [("success", JVal.jstr ("Evaluated " ++ pyShow tot2 ++ " examples")),
               ("detailed_results", dr)] } := by
  cases hl : fs.listdir self.results_dir with
  | error e =>
    rw [get_result_unfold_err self fs task_id e hl] at h
    exact Except.noConfusion h
  | ok entries =>
    rw [get_result_unfold_ok self fs task_id entries hl] at h
    cases hfil : entries.filter (fun f => strEndsWith f "_result.json") with
    | nil =>
      rw [hfil] at h
      dsimp only at h
      obtain rfl := Except.ok.inj h
      simp at hres
    | cons f0 rest =>
      rw [hfil] at h
      dsimp only at h
      cases htb : SimpleQABench.tryBody self fs task_id (joinPath self.results_dir f0) with
      | error e =>
        rw [htb] at h
        dsimp only at h
        obtain rfl := Except.ok.inj h
        simp at hres
      | ok r2 =>
        rw [htb] at h
        dsimp only at h
        obtain rfl := Except.ok.inj h
        obtain ⟨j, lc, m, acc, c, inc, na, tot, cga, fsc, tot2, rl, dr,
          hj, hlc, hm, h1, h2, h3, h4, h5, h6, h7, h8, h9, h10, hr⟩ := tryBody_ok_elim htb
        exact ⟨entries, f0, rest, j, lc, m, acc, c, inc, na, tot, cga, fsc, tot2, rl, dr,
          rfl, hfil, hj, hlc, hm, h1, h2, h3, h4, h5, h6, h7, h8, h9, h10, hr⟩

/-- The except clause never produces an empty error string. -/
theorem wrap_ne_empty (e : String) : ("Error parsing results: " ++ e) ≠ "" := by
  intro heq
  have hlen := congrArg String.length heq
  rw [String.length_append] at hlen
  have h23 : ("Error parsing results: " : String).length = 23 := rfl
  have h0 : ("" : String).length = 0 := rfl
  rw [h23, h0] at hlen
  omega

/-- The metrics object of `goodJson`. -/
def goodMetrics : JVal :=
  JVal.jobj
    [("accuracy", JVal.jnum 1), ("correct", JVal.jnum 8),
     ("incorrect", JVal.jnum 1), ("not_attempted", JVal.jnum 1),
     ("total", JVal.jnum 10), ("correct_given_attempted", JVal.jnum 1),
     ("f_score", JVal.jnum 1)]

/-- The resolved record `get_result` builds from `fsGood`. -/
def goodRecord : BenchmarkResult :=
  { task_id := "default",
    is_resolved := true,
    log := [("content", "hello")],
    metrics :=
      [("accuracy", JVal.jnum 1), ("correct", JVal.jnum 8),
       ("incorrect", JVal.jnum 1), ("not_attempted", JVal.jnum 1),
       ("total", JVal.jnum 10), ("correct_given_attempted", JVal.jnum 1),
       ("f_score", JVal.jnum 1)],
    other :=
      [("success", JVal.jstr "Evaluated 10 examples"),
       ("detailed_results", JVal.jarr [JVal.jnum 1, JVal.jnum 2, JVal.jnum 3])] }

/-- C2, counterexample: the selected result file parses with a complete
metrics object and a results array, yet `get_result` is not resolved,
because the log file exists and raises on read — a failure mode the claim
does not account for. -/
theorem c2_counterexample :
    fsLogBad.openJson (joinPath bX.results_dir "model_result.json") = Except.ok goodJson ∧
    getItem goodJson "metrics" = Except.ok goodMetrics ∧
    getItem goodJson "results" =
      Except.ok (JVal.jarr [JVal.jnum 1, JVal.jnum 2, JVal.jnum 3]) ∧
    SimpleQABench.get_result bX fsLogBad "default" =
      Except.ok
        { task_id := "default",
          is_resolved := false,
          log := [("message", "")],
          metrics := [("accuracy", JVal.jnum 0)],
          other := [("error",
            JVal.jstr "Error parsing results: PermissionError: simpleqa.log")] } :=
  ⟨rfl, rfl, rfl, rfl⟩

/-- C2, amended: if the selected result file parses with a metrics object
containing all seven fields and a results array, and the log step does not
raise, then `get_result` is resolved, the metrics are copied field by
field, and the detailed results are the first ten elements of the results
array in original order (all of them when the array has at most ten). -/
theorem c2_success (self : SimpleQABench) (fs : FS) (task_id : String)
    (entries : List String) (f0 : String) (rest : List String)
    (j m acc c inc na tot cga fsc : JVal) (xs : List JVal) (lc : String)
    (h : fs.listdir self.results_dir = Except.ok entries)
    (hfil : entries.filter (fun f => strEndsWith f "_result.json") = f0 :: rest)
    (hj : fs.openJson (joinPath self.results_dir f0) = Except.ok j)
    (hlog : SimpleQABench.logStep self fs = Except.ok lc)
    (hm : getItem j "metrics" = Except.ok m)
    (hacc : getItem m "accuracy" = Except.ok acc)
    (hc : getItem m "correct" = Except.ok c)
    (hinc : getItem m "incorrect" = Except.ok inc)
    (hna : getItem m "not_attempted" = Except.ok na)
    (htot : getItem m "total" = Except.ok tot)
    (hcga : getItem m "correct_given_attempted" = Except.ok cga)
    (hfsc : getItem m "f_score" = Except.ok fsc)
    (hrl : getItem j "results" = Except.ok (JVal.jarr xs)) :
    SimpleQABench.get_result self fs task_id =
      Except.ok
        { task_id := task_id,
          is_resolved := true,
          log := [("content", lc)],
          metrics :=
            [("accuracy", acc), ("correct", c), ("incorrect", inc),
             ("not_attempted", na), ("total", tot),
             ("correct_given_attempted", cga), ("f_score", fsc)],
          other :=
            [("success", JVal.jstr ("Evaluated " ++ pyShow tot ++ " examples")),
             ("detailed_results", JVal.jarr (xs.take 10))] } ∧
    (xs.length ≤ 10 → xs.take 10 = xs) ∧
    (10 ≤ xs.length → (xs.take 10).length = 10) := by
  refine ⟨?_, ?_, ?_⟩
  · apply get_result_eq_tryOk self fs task_id entries f0 rest _ h hfil
    unfold SimpleQABench.tryBody
    simp only [hj, hlog, hm, hacc, hc, hinc, hna, htot, hcga, hfsc, hrl,
      except_bind_ok, pySlice10]
  · intro hlen
    exact List.take_of_length_le hlen
  · intro hlen
    rw [List.length_take]
    exact Nat.min_eq_left hlen

/-- C2, witness for the amended theorem at the concrete snapshot
`fsGood`. -/
theorem c2_success_witness :
    fsGood.listdir bX.results_dir = Except.ok ["model_result.json"] ∧
    (["model_result.json"].filter (fun f => strEndsWith f "_result.json") =
      "model_result.json" :: []) ∧
    fsGood.openJson (joinPath bX.results_dir "model_result.json") = Except.ok goodJson ∧
    SimpleQABench.logStep bX fsGood = Except.ok "hello" ∧
    getItem goodJson "metrics" = Except.ok goodMetrics ∧
    getItem goodMetrics "accuracy" = Except.ok (JVal.jnum 1) ∧
    getItem goodMetrics "correct" = Except.ok (JVal.jnum 8) ∧
    getItem goodMetrics "incorrect" = Except.ok (JVal.jnum 1) ∧
    getItem goodMetrics "not_attempted" = Except.ok (JVal.jnum 1) ∧
    getItem goodMetrics "total" = Except.ok (JVal.jnum 10) ∧
    getItem goodMetrics "correct_given_attempted" = Except.ok (JVal.jnum 1) ∧
    getItem goodMetrics "f_score" = Except.ok (JVal.jnum 1) ∧
    getItem goodJson "results" =
      Except.ok (JVal.jarr [JVal.jnum 1, JVal.jnum 2, JVal.jnum 3]) ∧
    (SimpleQABench.get_result bX fsGood "default" = Except.ok goodRecord ∧
      ([JVal.jnum 1, JVal.jnum 2, JVal.jnum 3].length ≤ 10 →
        [JVal.jnum 1, JVal.jnum 2, JVal.jnum 3].take 10 =
          [JVal.jnum 1, JVal.jnum 2, JVal.jnum 3]) ∧
      (10 ≤ [JVal.jnum 1, JVal.jnum 2, JVal.jnum 3].length →
        ([JVal.jnum 1, JVal.jnum 2, JVal.jnum 3].take 10).length = 10)) :=
  ⟨rfl, rfl, rfl, rfl, rfl, rfl, rfl, rfl, rfl, rfl, rfl, rfl, rfl,
    c2_success bX fsGood "default" ["model_result.json"] "model_result.json" []
      goodJson goodMetrics (JVal.jnum 1) (JVal.jnum 8) (JVal.jnum 1) (JVal.jnum 1)
      (JVal.jnum 10) (JVal.jnum 1) (JVal.jnum 1)
      [JVal.jnum 1, JVal.jnum 2, JVal.jnum 3] "hello"
      rfl rfl rfl rfl rfl rfl rfl rfl rfl rfl rfl rfl rfl⟩

/-- C3: when the selected result file fails to parse, or its JSON lacks
the `metrics` key, any of the seven metric sub-fields, or the `results`
key, `get_result` catches the exception and returns an unresolved record
with `accuracy` zero and a non-empty error string. -/
theorem c3_malformed (self : SimpleQABench) (fs : FS) (task_id : String)
    (entries : List String) (f0 : String) (rest : List String)
    (h : fs.listdir self.results_dir = Except.ok entries)
    (hfil : entries.filter (fun f => strEndsWith f "_result.json") = f0 :: rest)
    (hbad :
      (∀ j, fs.openJson (joinPath self.results_dir f0) ≠ Except.ok j) ∨
      (∃ j, fs.openJson (joinPath self.results_dir f0) = Except.ok j ∧
        ((∀ m, getItem j "metrics" ≠ Except.ok m) ∨
         (∃ m, getItem j "metrics" = Except.ok m ∧
           ((∀ v, getItem m "accuracy" ≠ Except.ok v) ∨
            (∀ v, getItem m "correct" ≠ Except.ok v) ∨
            (∀ v, getItem m "incorrect" ≠ Except.ok v) ∨
            (∀ v, getItem m "not_attempted" ≠ Except.ok v) ∨
            (∀ v, getItem m "total" ≠ Except.ok v) ∨
            (∀ v, getItem m "correct_given_attempted" ≠ Except.ok v) ∨
            (∀ v, getItem m "f_score" ≠ Except.ok v))) ∨
         (∀ v, getItem j "results" ≠ Except.ok v)))) :
    ∃ msg, SimpleQABench.get_result self fs task_id =
      Except.ok
        { task_id := task_id,
          is_resolved := false,
          log := [("message", "")],
          metrics := [("accuracy", JVal.jnum 0)],
          other := [("error", JVal.jstr msg)] } ∧
      msg ≠ "" := by
  cases htb : SimpleQABench.tryBody self fs task_id (joinPath self.results_dir f0) with
  | error e =>
    exact ⟨"Error parsing results: " ++ e,
      get_result_eq_tryErr self fs task_id entries f0 rest e h hfil htb,
      wrap_ne_empty e⟩
  | ok r =>
    exfalso
    obtain ⟨j, lc, m, acc, c, inc, na, tot, cga, fsc, tot2, rl, dr,
      hj, hlc, hm, h1, h2, h3, h4, h5, h6, h7, h8, h9, h10, hr⟩ := tryBody_ok_elim htb
    rcases hbad with hb | ⟨j2, hj2, hb⟩
    · exact hb j hj
    · rw [hj] at hj2
      obtain rfl := Except.ok.inj hj2
      rcases hb with hb | ⟨m2, hm2, hb⟩ | hb
      · exact hb m hm
      · rw [hm] at hm2
        obtain rfl := Except.ok.inj hm2
        rcases hb with hb | hb | hb | hb | hb | hb | hb
        · exact hb acc h1
        · exact hb c h2
        · exact hb inc h3
        · exact hb na h4
        · exact hb tot h5
        · exact hb cga h6
        · exact hb fsc h7
      · exact hb rl h9

/-- C3, witness at a concrete snapshot whose result file fails to parse. -/
theorem c3_malformed_witness :
    fsBoom.listdir bX.results_dir = Except.ok ["model_result.json"] ∧
    (["model_result.json"].filter (fun f => strEndsWith f "_result.json") =
      "model_result.json" :: []) ∧
    (∀ j, fsBoom.openJson (joinPath bX.results_dir "model_result.json") ≠ Except.ok j) ∧
    (∃ msg, SimpleQABench.get_result bX fsBoom "default" =
      Except.ok
        { task_id := "default",
          is_resolved := false,
          log := [("message", "")],
          metrics := [("accuracy", JVal.jnum 0)],
          other := [("error", JVal.jstr msg)] } ∧
      msg ≠ "") :=
  ⟨rfl, rfl, fun _ hj => Except.noConfusion hj,
    c3_malformed bX fsBoom "default" ["model_result.json"] "model_result.json" []
      rfl rfl (Or.inl fun _ hj => Except.noConfusion hj)⟩

/-- C4, counterexample: the caught exception has message `boom`, but the
returned `other.error` is not `boom` — the code prefixes it with
`Error parsing results: `. -/
theorem c4_counterexample :
    SimpleQABench.tryBody bX fsBoom "default" (joinPath bX.results_dir "model_result.json") =
      Except.error "boom" ∧
    SimpleQABench.get_result bX fsBoom "default" =
      Except.ok
        { task_id := "default",
          is_resolved := false,
          log := [("message", "")],
          metrics := [("accuracy", JVal.jnum 0)],
          other := [("error", JVal.jstr "Error parsing results: boom")] } ∧
    "Error parsing results: boom" ≠ "boom" :=
  ⟨rfl, rfl, by decide⟩

/-- C4, amended: in the malformed-output failure case the underlying
exception message is preserved verbatim as the suffix of `other.error`,
which equals the fixed prefix `Error parsing results: ` followed by the
message. -/
theorem c4_message_preserved (self : SimpleQABench) (fs : FS) (task_id : String)
    (entries : List String) (f0 : String) (rest : List String) (e : String)
    (h : fs.listdir self.results_dir = Except.ok entries)
    (hfil : entries.filter (fun f => strEndsWith f "_result.json") = f0 :: rest)
    (htb : SimpleQABench.tryBody self fs task_id (joinPath self.results_dir f0) =
      Except.error e) :
    SimpleQABench.get_result self fs task_id =
      Except.ok
        { task_id := task_id,
          is_resolved := false,
          log := [("message", "")],
          metrics := [("accuracy", JVal.jnum 0)],
          other := [("error", JVal.jstr ("Error parsing results: " ++ e))] } :=
  get_result_eq_tryErr self fs task_id entries f0 rest e h hfil htb

/-- C4, witness for the amended theorem at a concrete snapshot. -/
theorem c4_message_preserved_witness :
    fsBoom.listdir bX.results_dir = Except.ok ["model_result.json"] ∧
    (["model_result.json"].filter (fun f => strEndsWith f "_result.json") =
      "model_result.json" :: []) ∧
    SimpleQABench.tryBody bX fsBoom "default" (joinPath bX.results_dir "model_result.json") =
      Except.error "boom" ∧
    SimpleQABench.get_result bX fsBoom "default" =
      Except.ok
        { task_id := "default",
          is_resolved := false,
          log := [("message", "")],
          metrics := [("accuracy", JVal.jnum 0)],
          other := [("error", JVal.jstr ("Error parsing results: " ++ "boom"))] } :=
  ⟨rfl, rfl, rfl,
    c4_message_preserved bX fsBoom "default" ["model_result.json"] "model_result.json" []
      "boom" rfl rfl rfl⟩

/-- C6: on the success path, `log.content` is the full text of
`simpleqa.log` when that file exists, and the empty string when it does
not; in neither case does the log handling produce a failure record. -/
theorem c6_log_content (self : SimpleQABench) (fs : FS) (task_id : String)
    (r : BenchmarkResult)
    (h : SimpleQABench.get_result self fs task_id = Except.ok r)
    (hres : r.is_resolved = true) :
    (fs.pathExists (joinPath self.log_files_dir "simpleqa.log") = true →
      ∃ s, fs.readText (joinPath self.log_files_dir "simpleqa.log") = Except.ok s ∧
        r.log = [("content", s)]) ∧
    (fs.pathExists (joinPath self.log_files_dir "simpleqa.log") = false →
      r.log = [("content", "")]) := by
  obtain ⟨entries, f0, rest, j, lc, m, acc, c, inc, na, tot, cga, fsc, tot2, rl, dr,
    hl, hfil, hj, hlc, hm, h1, h2, h3, h4, h5, h6, h7, h8, h9, h10, hr⟩ :=
    get_result_resolved_elim h hres
  subst hr
  simp only [SimpleQABench.logStep] at hlc
  constructor
  · intro hex
    rw [hex] at hlc
    simp only [if_true] at hlc
    exact ⟨lc, hlc, rfl⟩
  · intro hnex
    rw [hnex] at hlc
    simp at hlc
    subst hlc
    rfl

/-- C6, witness at the concrete snapshot `fsGood`, whose log file exists
and contains `hello`. -/
theorem c6_log_content_witness :
    SimpleQABench.get_result bX fsGood "default" = Except.ok goodRecord ∧
    goodRecord.is_resolved = true ∧
    ((fsGood.pathExists (joinPath bX.log_files_dir "simpleqa.log") = true →
      ∃ s, fsGood.readText (joinPath bX.log_files_dir "simpleqa.log") = Except.ok s ∧
        goodRecord.log = [("content", s)]) ∧
     (fsGood.pathExists (joinPath bX.log_files_dir "simpleqa.log") = false →
      goodRecord.log = [("content", "")])) :=
  ⟨rfl, rfl, c6_log_content bX fsGood "default" goodRecord rfl rfl⟩

/-- C10: a resolved record carries exactly the seven expected metric keys,
in the order the source builds them; extra keys present in the file are
not passed through. -/
theorem c10_metric_keys (self : SimpleQABench) (fs : FS) (task_id : String)
    (r : BenchmarkResult)
    (h : SimpleQABench.get_result self fs task_id = Except.ok r)
    (hres : r.is_resolved = true) :
    r.metrics.map Prod.fst =
      ["accuracy", "correct", "incorrect", "not_attempted", "total",
       "correct_given_attempted", "f_score"] := by
  obtain ⟨entries, f0, rest, j, lc, m, acc, c, inc, na, tot, cga, fsc, tot2, rl, dr,
    hl, hfil, hj, hlc, hm, h1, h2, h3, h4, h5, h6, h7, h8, h9, h10, hr⟩ :=
    get_result_resolved_elim h hres
  subst hr
  rfl

/-- C10, witness at the concrete snapshot `fsGood`. -/
theorem c10_metric_keys_witness :
    SimpleQABench.get_result bX fsGood "default" = Except.ok goodRecord ∧
    goodRecord.is_resolved = true ∧
    goodRecord.metrics.map Prod.fst =
      ["accuracy", "correct", "incorrect", "not_attempted", "total",
       "correct_given_attempted", "f_score"] :=
  ⟨rfl, rfl, c10_metric_keys bX fsGood "default" goodRecord rfl rfl⟩
